import Mathlib

/-!
Shallow embedding of the analyze-connect sample connectors:
the NYPD connector (`samples/src/connectors/nypd-connector/connector.controller.ts`,
`data-service.ts`) and the example connector (friend expansion, seeded search).
The i2 Connect SDK `Result` builder and the in-memory person dataset live in this
repository outside the sample sources; they are modelled from the specification
where noted.  Identifiers, property coercions and control flow are translated
from the TypeScript sources.
-/

/-- A record identifier handed to the SDK: either a plain string id or a
structured source identifier (a type tag plus a key array), mirroring
`records.ResultRecordIdType` as used by the samples. -/
inductive RecordId where
  | str (s : String)
  | src (idType : String) (key : List String)
deriving DecidableEq, Repr

/-- A property value as the samples produce them: strings, integers obtained by
`parseInt`, geospatial points built from two parsed integers, and the structured
local-date-and-time object used for the SSN issue date. -/
inductive PropValue where
  | str (s : String)
  | int (n : Int)
  | point (lat lon : Int)
  | dateTime (localDateAndTime timeZoneId : String) (isDST : Bool)
deriving DecidableEq, Repr

/-- A provenance (source) reference block: name, type and description, as passed
to `setSourceReference` by the samples. -/
structure SourceRef where
  name : String
  refType : String
  description : String
deriving DecidableEq, Repr

/-- An entity is addressed inside a result graph by its entity-type id together
with its record identifier. -/
abbrev EntityKey := String × RecordId

/-- A typed entity of the result graph, with its properties and optional
provenance reference. -/
structure ResultEntity where
  typeId : String
  id : RecordId
  props : List (String × PropValue)
  sourceRef : Option SourceRef
deriving DecidableEq, Repr

/-- A typed link of the result graph between two entity keys, with optional
provenance reference. -/
structure ResultLink where
  typeId : String
  id : RecordId
  fromKey : EntityKey
  toKey : EntityKey
  sourceRef : Option SourceRef
deriving DecidableEq, Repr

/-- Modelled from the spec: the SDK `Result` builder (`@i2analyze/i2connect`),
whose source is not under the sample sources.  The spec describes the
ResultGraph as "the set of all ResultEntities and ResultLinks produced by one
service invocation", with deterministic identifiers "preventing duplicate
edges"; accordingly entities and links are keyed by (type id, record id) and
adding an existing key does not create a second member. -/
structure Result where
  entities : List ResultEntity
  links : List ResultLink
deriving DecidableEq, Repr

/-- The empty result graph a service starts from (`new Result()`). -/
def Result.empty : Result := ⟨[], []⟩

/-- Modelled from the spec: adding an entity and then setting its properties and
source reference, as every sample does in one straight-line block.  If the
(type, id) key already exists, the existing member is updated in place (set
semantics of the ResultGraph); otherwise a new entity is appended. -/
def Result.addEntityOp (r : Result) (t : String) (id : RecordId)
    (props : List (String × PropValue)) (ref : Option SourceRef) : Result :=
  if r.entities.any (fun e => e.typeId == t && e.id == id) then
    { r with entities := r.entities.map (fun e =>
        if e.typeId == t && e.id == id then { e with props := props, sourceRef := ref } else e) }
  else
    { r with entities := r.entities ++ [⟨t, id, props, ref⟩] }

/-- Modelled from the spec: adding a link (optionally followed by setting its
source reference).  A link whose (type, id) key already exists is not added a
second time — the spec's order-independent identifiers exist precisely to
prevent duplicate edges for a repeated pair. -/
def Result.addLinkOp (r : Result) (t : String) (id : RecordId)
    (fromKey toKey : EntityKey) (ref : Option SourceRef) : Result :=
  if r.links.any (fun l => l.typeId == t && l.id == id) then r
  else { r with links := r.links ++ [⟨t, id, fromKey, toKey, ref⟩] }

/-- The (type, id) keys of the entities of a result graph. -/
def Result.entityKeys (r : Result) : List EntityKey :=
  r.entities.map (fun e => (e.typeId, e.id))

/-- The (type, id) keys of the links of a result graph. -/
def Result.linkKeys (r : Result) : List EntityKey :=
  r.links.map (fun l => (l.typeId, l.id))

/-- JavaScript string interpolation of a possibly-absent field: an absent value
prints as the string "undefined". -/
def jsStr (o : Option String) : String := o.getD "undefined"

/-- JavaScript `parseInt(s, 10)`: skip leading whitespace, optional sign, then
the longest prefix of decimal digits; `none` models NaN (no digits found). -/
def parseInt10 (s : String) : Option Int :=
  let cs := s.toList.dropWhile (fun c => c.isWhitespace)
  let signed : Int × List Char :=
    match cs with
    | '-' :: r => (-1, r)
    | '+' :: r => (1, r)
    | r => (1, r)
  let ds := signed.2.takeWhile Char.isDigit
  if ds.isEmpty then none
  else some (signed.1 * Int.ofNat (ds.foldl (fun n c => n * 10 + (c.toNat - 48)) 0))

/-- `parseInt` applied to a possibly-absent source field: an absent field is the
string "undefined", which has no digit prefix, hence NaN. -/
def parseOptField (o : Option String) : Option Int := parseInt10 (jsStr o)

/-- Drops the omitted (absent) properties: `setProperty` with an undefined value
silently omits the property, per the spec's boundary behaviour. -/
def collapseProps (l : List (String × Option PropValue)) : List (String × PropValue) :=
  l.filterMap (fun p => p.2.map (fun v => (p.1, v)))

/-- Error raised when a mandatory numeric field cannot be parsed to its declared
logical type (the spec's DataFormatError), carrying the property name. -/
structure DataFormatError where
  propName : String
deriving DecidableEq, Repr

/-- A raw row of the NYPD complaint dataset (`IComplaintDto` in
`data-service.ts`).  The TypeScript interface declares every field as a string,
but the JSON payload is cast without validation, so a field can be absent at
run time; absent is `none`. -/
structure IComplaintDto where
  cmplnt_num : Option String
  crm_atpt_cptd_cd : Option String
  jurisdiction_code : Option String
  ky_cd : Option String
  law_cat_cd : Option String
  ofns_desc : Option String
  addr_pct_cd : Option String
  boro_nm : Option String
  latitude : Option String
  longitude : Option String
  vic_age_group : Option String
  vic_race : Option String
  vic_sex : Option String
  susp_age_group : Option String
  susp_race : Option String
  susp_sex : Option String
deriving DecidableEq, Repr

/-- The fixed provenance block attached by the NYPD connector
(`exampleSourceRef` in `connector.controller.ts`). -/
def nypdSourceRef : SourceRef :=
  ⟨"NYPD Complaint Dataset", "Open source data",
    "A source reference to the corresponding record from the NYPD Complaint Dataset."⟩

/-- The Location identifier template of `addLocation`:
`Borough: ${datum.boro_nm} Precinct: ${datum.addr_pct_cd}`. -/
def locationIdOf (datum : IComplaintDto) : String :=
  "Borough: " ++ jsStr datum.boro_nm ++ " Precinct: " ++ jsStr datum.addr_pct_cd

/-- The property block of `addLocation` once the mandatory numeric coercions
have produced the precinct code and the two coordinates. -/
def locationProps (datum : IComplaintDto) (precinct lat lon : Int) :
    List (String × PropValue) :=
  collapseProps
    [("Precinct Code", some (PropValue.int precinct)),
     ("Borough Name", datum.boro_nm.map PropValue.str),
     ("Coordinates", some (PropValue.point lat lon))]

/-- `addLocation` from `connector.controller.ts`: identifier from borough name
and precinct code, Precinct Code coerced to integer, Borough Name as string,
Coordinates from parsed latitude and longitude; mandatory numeric coercions
raise DataFormatError on parse failure, absent string fields are omitted. -/
def addLocation (datum : IComplaintDto) (r : Result) :
    Except DataFormatError (Result × EntityKey) :=
  match parseOptField datum.addr_pct_cd, parseOptField datum.latitude,
      parseOptField datum.longitude with
  | none, _, _ => Except.error ⟨"Precinct Code"⟩
  | some _, none, _ => Except.error ⟨"Coordinates"⟩
  | some _, some _, none => Except.error ⟨"Coordinates"⟩
  | some precinct, some lat, some lon =>
    Except.ok (r.addEntityOp "Location" (RecordId.str (locationIdOf datum))
      (locationProps datum precinct lat lon) (some nypdSourceRef),
      ("Location", RecordId.str (locationIdOf datum)))

/-- The Complaint identifier template of `addComplaint`:
`Complaint: ${datum.cmplnt_num}`. -/
def complaintIdOf (datum : IComplaintDto) : String :=
  "Complaint: " ++ jsStr datum.cmplnt_num

/-- The property block of `addComplaint` once the mandatory numeric coercions
have produced the jurisdiction code and the offence classification code. -/
def complaintProps (datum : IComplaintDto) (jurisdiction ky : Int) :
    List (String × PropValue) :=
  collapseProps
    [("Complaint Number", datum.cmplnt_num.map PropValue.str),
     ("Crime Status", datum.crm_atpt_cptd_cd.map PropValue.str),
     ("Jurisdiction Code", some (PropValue.int jurisdiction)),
     ("Offence Classification Code", some (PropValue.int ky)),
     ("Level Of Offence", datum.law_cat_cd.map PropValue.str),
     ("Offence Description", datum.ofns_desc.map PropValue.str)]

/-- `addComplaint` from `connector.controller.ts`: identifier from the
complaint number; Jurisdiction Code and Offence Classification Code are
mandatory numeric coercions, the remaining properties are strings omitted when
absent. -/
def addComplaint (datum : IComplaintDto) (r : Result) :
    Except DataFormatError (Result × EntityKey) :=
  match parseOptField datum.jurisdiction_code, parseOptField datum.ky_cd with
  | none, _ => Except.error ⟨"Jurisdiction Code"⟩
  | some _, none => Except.error ⟨"Offence Classification Code"⟩
  | some jurisdiction, some ky =>
    Except.ok (r.addEntityOp "Complaint" (RecordId.str (complaintIdOf datum))
      (complaintProps datum jurisdiction ky) (some nypdSourceRef),
      ("Complaint", RecordId.str (complaintIdOf datum)))

/-- The property block of `addSuspect`: three optional string properties. -/
def suspectProps (datum : IComplaintDto) : List (String × PropValue) :=
  collapseProps
    [("Age Group", datum.susp_age_group.map PropValue.str),
     ("Race", datum.susp_race.map PropValue.str),
     ("Sex", datum.susp_sex.map PropValue.str)]

/-- `addSuspect` from `connector.controller.ts`: a Person entity keyed by the
complaint number, with three optional string properties. -/
def addSuspect (datum : IComplaintDto) (r : Result) : Result × EntityKey :=
  let suspectId := "Suspect: " ++ jsStr datum.cmplnt_num
  (r.addEntityOp "Person" (RecordId.str suspectId) (suspectProps datum) (some nypdSourceRef),
   ("Person", RecordId.str suspectId))

/-- The property block of `addVictim`: three optional string properties. -/
def victimProps (datum : IComplaintDto) : List (String × PropValue) :=
  collapseProps
    [("Age Group", datum.vic_age_group.map PropValue.str),
     ("Race", datum.vic_race.map PropValue.str),
     ("Sex", datum.vic_sex.map PropValue.str)]

/-- `addVictim` from `connector.controller.ts`: a Person entity keyed by the
complaint number, with three optional string properties. -/
def addVictim (datum : IComplaintDto) (r : Result) : Result × EntityKey :=
  let victimId := "Victim: " ++ jsStr datum.cmplnt_num
  (r.addEntityOp "Person" (RecordId.str victimId) (victimProps datum) (some nypdSourceRef),
   ("Person", RecordId.str victimId))

/-- `addLink` from `connector.controller.ts`: adds the link and sets the NYPD
source reference on it. -/
def addNypdLink (t : String) (id : String) (fromKey toKey : EntityKey) (r : Result) : Result :=
  r.addLinkOp t (RecordId.str id) fromKey toKey (some nypdSourceRef)

/-- The body of the `getAll` loop for one fetched row: the four entities, then
the Locatedat, Victimof and Suspectof links keyed by the complaint number. -/
def processDatum (datum : IComplaintDto) (r : Result) : Except DataFormatError Result :=
  match addLocation datum r with
  | Except.error e => Except.error e
  | Except.ok (r1, locKey) =>
    match addComplaint datum r1 with
    | Except.error e => Except.error e
    | Except.ok (r2, compKey) =>
      let s := addSuspect datum r2
      let v := addVictim datum s.1
      let r5 := addNypdLink "Locatedat" (jsStr datum.cmplnt_num) compKey locKey v.1
      let r6 := addNypdLink "Victimof" (jsStr datum.cmplnt_num) v.2 compKey r5
      let r7 := addNypdLink "Suspectof" (jsStr datum.cmplnt_num) s.2 compKey r6
      Except.ok r7

/-- Sequential processing of fetched rows with exception propagation: a thrown
error aborts the remaining iterations, exactly as a `for ... of` loop with a
`throw` inside does. -/
def foldE {α : Type} (f : α → Result → Except DataFormatError Result) :
    List α → Result → Except DataFormatError Result
  | [], r => Except.ok r
  | d :: l, r =>
    match f d r with
    | Except.error e => Except.error e
    | Except.ok r2 => foldE f l r2

/-- The graph-construction part of `NYPDConnector.getAll`: fold the loop body
over the fetched rows starting from an empty result. -/
def getAllGraph (data : List IComplaintDto) : Except DataFormatError Result :=
  foldE processDatum data Result.empty

/-- An HTTP response as observed by `requestData`: status code, status text and
the outcome of `response.json()` (which itself fails on a malformed body). -/
structure HttpResponse where
  status : Nat
  statusText : String
  jsonBody : Except String (List IComplaintDto)
deriving Repr

/-- `requestData` from `data-service.ts`: returns the parsed JSON body when the
status is 200 and otherwise throws an error carrying the response status
text. -/
def requestData (resp : HttpResponse) : Except String (List IComplaintDto) :=
  if resp.status = 200 then resp.jsonBody else Except.error resp.statusText

/-- A terminal service failure: either a transport error from the fetch or a
data-format error from graph construction. -/
inductive ServiceError where
  | transport (msg : String)
  | dataFormat (e : DataFormatError)
deriving DecidableEq, Repr

/-- `NYPDConnector.getAll` given the HTTP response its fetch produced: a failed
fetch aborts the invocation before any graph is built. -/
def getAllService (resp : HttpResponse) : Except ServiceError Result :=
  match requestData resp with
  | Except.error m => Except.error (ServiceError.transport m)
  | Except.ok data =>
    match getAllGraph data with
    | Except.error e => Except.error (ServiceError.dataFormat e)
    | Except.ok g => Except.ok g

/-- A person row of the example connector's in-memory dataset (`IPerson` in
`data-access.ts`): the dataset itself is repository code outside the sample
sources, so the rows are universally quantified inputs of the model. -/
structure IPerson where
  id : String
  forename : String
  surname : String
  dob : String
  ssn : String
  issuedDateAndTime : String
  friends : List String
deriving DecidableEq, Repr

/-- The provenance block attached by `addPersonToResult` in the example
connector. -/
def personSourceRef : SourceRef :=
  ⟨"Example source name", "Example source type",
    "An example source reference from a connected data source"⟩

/-- Models `new Date(dob).getFullYear()` for the dataset's date strings, which
the source documents as formatted YYYY-MM-DD: the leading four digits; `none`
models NaN for a string not carrying four leading digits. -/
def yearOfDob (dob : String) : Option Int :=
  let ds := dob.toList.take 4
  if ds.length = 4 && ds.all Char.isDigit then
    some (Int.ofNat (ds.foldl (fun n c => n * 10 + (c.toNat - 48)) 0))
  else none

/-- The property list written by `addPersonToResult`, given the calendar year
observed by `new Date().getFullYear()` at run time: the Age property is the
current year minus the year of birth and is omitted when the date of birth does
not parse. -/
def personProps (year : Int) (person : IPerson) : List (String × PropValue) :=
  collapseProps
    [("First Name", some (PropValue.str person.forename)),
     ("Last Name", some (PropValue.str person.surname)),
     ("Year of Birth", some (PropValue.str person.dob)),
     ("Age", (yearOfDob person.dob).map (fun y => PropValue.int (year - y))),
     ("SSN", some (PropValue.str person.ssn)),
     ("SSN Issued Date and Time",
       some (PropValue.dateTime person.issuedDateAndTime "Europe/London" false))]

/-- `addPersonToResult` from the example connector: adds a Person entity whose
identifier comes from the identifier factory (plain string by default), sets
the six properties and the example source reference, and returns the entity. -/
def addPersonToResult (year : Int) (person : IPerson) (idF : String → RecordId)
    (r : Result) : Result × EntityKey :=
  let id := idF person.id
  (r.addEntityOp "Person" id (personProps year person) (some personSourceRef), ("Person", id))

/-- Boolean infix test on character lists, used to model JavaScript
`String.prototype.includes`. -/
def listInfix (pat : List Char) : List Char → Bool
  | [] => pat.isEmpty
  | c :: cs => pat.isPrefixOf (c :: cs) || listInfix pat cs

/-- `caseInsensitiveContains` from the example connector: substring test after
lowercasing both strings (lowercasing modelled characterwise). -/
def caseInsensitiveContains (source searchValue : String) : Bool :=
  listInfix (searchValue.toList.map Char.toLower) (source.toList.map Char.toLower)

/-- The wildcard search term of the example connector. -/
def wildcardSearchTerm : String := "*"

/-- The predicate of `findPeople`: the wildcard matches everyone, otherwise the
term must occur in the forename or the surname, case-insensitively. -/
def findPeoplePred (term : String) (person : IPerson) : Bool :=
  term == wildcardSearchTerm
    || caseInsensitiveContains person.forename term
    || caseInsensitiveContains person.surname term

/-- `findPeople` from the example connector: filter the dataset by the search
term and add every match to a fresh result. -/
def findPeople (dataset : List IPerson) (year : Int) (term : String)
    (idF : String → RecordId) : Result :=
  (dataset.filter (findPeoplePred term)).foldl
    (fun r person => (addPersonToResult year person idF r).1) Result.empty

/-- Lexicographic comparison of character lists by code point, modelling the
default JavaScript string comparison used by `Array.prototype.sort`. -/
def listCharLe : List Char → List Char → Bool
  | [], _ => true
  | _ :: _, [] => false
  | a :: as, b :: bs =>
    if a.toNat < b.toNat then true
    else if b.toNat < a.toNat then false
    else listCharLe as bs

/-- Lexicographic string comparison by code point. -/
def strLe (a b : String) : Bool := listCharLe a.toList b.toList

/-- The friend-link identifier of `getFriendsLinkedToSeeds`: the two underlying
ids sorted lexicographically and joined with "-"
(`[person.id, friend.id].sort().join('-')`). -/
def sortJoin (a b : String) : String :=
  if strLe a b then a ++ "-" ++ b else b ++ "-" ++ a

/-- The body of the innermost loop of `getFriendsLinkedToSeeds`: add the person
and the friend, then add a Friendswith link keyed by the sorted-joined pair of
underlying ids.  The source sets no source reference on this link. -/
def addFriendPair (year : Int) (idF : String → RecordId) (person friend : IPerson)
    (r : Result) : Result :=
  let p1 := addPersonToResult year person idF r
  let p2 := addPersonToResult year friend idF p1.1
  p2.1.addLinkOp "Friendswith" (idF (sortJoin person.id friend.id)) p1.2 p2.2 none

/-- `getFriendsLinkedToSeeds` from the example connector: for every seed,
look up the people whose ids the seed resolves to, then each person's friends,
and add both entities plus one Friendswith link per (person, friend) pair.
`lookupPeople` filters the in-memory dataset with the given predicate.  The
seed type is abstract, as the function only consumes seeds through the
id-extraction callback. -/
def getFriendsLinkedToSeeds {σ : Type} (dataset : List IPerson) (year : Int)
    (seeds : List σ) (extractIdsFromSeed : σ → List String)
    (idF : String → RecordId) : Result :=
  seeds.foldl (fun r seed =>
    (dataset.filter (fun person => (extractIdsFromSeed seed).contains person.id)).foldl
      (fun r person =>
        (dataset.filter (fun friend => person.friends.contains friend.id)).foldl
          (fun r friend => addFriendPair year idF person friend r) r)
      r)
    Result.empty

/-- A Person seed of the example connector, as consumed by
`exampleSeededSearch1`: the three properties it reads (absent when the chart
item lacks them) and the ids of its Person connector keys
(`connectorKeysByType` followed by `extractIdsFromConnectorKeys`). -/
structure PersonSeed where
  firstName : Option String
  lastName : Option String
  yearOfBirth : Option String
  connectorKeyIds : List String
deriving DecidableEq, Repr

/-- The predicate of `exampleSeededSearch1`: records already charted (their id
among the seed's connector-key ids) are filtered out; otherwise a person
matches on equal forename, equal surname, or — when requested and available —
equal leading four characters of the date of birth.  JavaScript
`localeCompare` equality is modelled as string equality. -/
def seededSearch1Pred (forename surname : String) (dob : Option String)
    (useYearOfBirth : Option Bool) (connectorKeyIds : List String)
    (person : IPerson) : Bool :=
  if connectorKeyIds.contains person.id then false
  else
    person.forename == forename
      || person.surname == surname
      || (useYearOfBirth.getD false
            && dob.isSome
            && (person.dob.toList.take 4 == (jsStr dob).toList.take 4))

/-- `exampleSeededSearch1` from the example connector ("find like this"): pull
the seed's properties and connector-key ids, filter the dataset with the
predicate above, and add every match to a fresh result with the default string
identifier factory. -/
def exampleSeededSearch1 (dataset : List IPerson) (year : Int) (seed : PersonSeed)
    (useYearOfBirth : Option Bool) : Result :=
  let forename := seed.firstName.getD ""
  let surname := seed.lastName.getD ""
  let dob := seed.yearOfBirth
  let pred := seededSearch1Pred forename surname dob useYearOfBirth seed.connectorKeyIds
  (dataset.filter pred).foldl
    (fun r person => (addPersonToResult year person RecordId.str r).1) Result.empty

/-- A seed of the NYPD expand service, constrained to Complaint or Location:
whether `seed.isType(Complaint)` holds, and the record identifier under which
`addEntityFromSeed` registers it. -/
structure NYPDSeed where
  isComplaint : Bool
  seedId : RecordId
deriving DecidableEq, Repr

/-- Modelled from the spec: `result.addEntityFromSeed(seed)` wraps an upstream
seed as a pass-through node of the graph with no new property assignment, so
that subsequent links can reference it. -/
def addEntityFromSeed (seed : NYPDSeed) (r : Result) : Result × EntityKey :=
  let t := if seed.isComplaint then "Complaint" else "Location"
  (r.addEntityOp t seed.seedId [] none, (t, seed.seedId))

/-- The body of the `expand` loop for one fetched row: the seed entity stands
in for the complaint (or the location) when the seed has that type, the other
entity is built from the row, and the suspect, victim and the three links are
added as in `getAll`. -/
def processExpandDatum (seed : NYPDSeed) (seedKey : EntityKey) (datum : IComplaintDto)
    (r : Result) : Except DataFormatError Result :=
  match (if seed.isComplaint then Except.ok (r, seedKey) else addComplaint datum r :
      Except DataFormatError (Result × EntityKey)) with
  | Except.error e => Except.error e
  | Except.ok complaintStep =>
    match (if !seed.isComplaint then Except.ok (complaintStep.1, seedKey)
        else addLocation datum complaintStep.1 :
        Except DataFormatError (Result × EntityKey)) with
    | Except.error e => Except.error e
    | Except.ok locationStep =>
      let s := addSuspect datum locationStep.1
      let v := addVictim datum s.1
      let r5 := addNypdLink "Locatedat" (jsStr datum.cmplnt_num) complaintStep.2 locationStep.2 v.1
      let r6 := addNypdLink "Victimof" (jsStr datum.cmplnt_num) v.2 complaintStep.2 r5
      let r7 := addNypdLink "Suspectof" (jsStr datum.cmplnt_num) s.2 complaintStep.2 r6
      Except.ok r7

/-- The graph-construction part of `NYPDConnector.expand`, translated with the
conditional exactly as the source writes it:
`seed.isType(Complaint) ? result.addEntityFromSeed(seed) : result.addEntityFromSeed(seed)`. -/
def expandGraph (seed : NYPDSeed) (data : List IComplaintDto) :
    Except DataFormatError Result :=
  let seedStep :=
    if seed.isComplaint then addEntityFromSeed seed Result.empty
    else addEntityFromSeed seed Result.empty
  foldE (processExpandDatum seed seedStep.2) data seedStep.1

/-- The same service with the conditional replaced by an unconditional
`result.addEntityFromSeed(seed)`, following the spec's reading of the dead
branch. -/
def expandGraphUncond (seed : NYPDSeed) (data : List IComplaintDto) :
    Except DataFormatError Result :=
  let seedStep := addEntityFromSeed seed Result.empty
  foldE (processExpandDatum seed seedStep.2) data seedStep.1

/-- The outcome of `getAll` graph construction has duplicate-free entity keys;
an error outcome satisfies the predicate vacuously, as no graph is returned. -/
def entityKeysNodupE : Except DataFormatError Result → Prop
  | Except.error _ => True
  | Except.ok g => g.entityKeys.Nodup

/-- The outcome of `getAll` graph construction carries a provenance reference
on every entity and every link; an error outcome returns no graph. -/
def refsAllSomeE : Except DataFormatError Result → Prop
  | Except.error _ => True
  | Except.ok g =>
    (∀ e ∈ g.entities, e.sourceRef.isSome = true) ∧ (∀ l ∈ g.links, l.sourceRef.isSome = true)

/-- Holds of a result entity whose plain string identifier is not among the
given connector-key ids (entities with structured identifiers hold
vacuously). -/
def idExcluded (ids : List String) (e : ResultEntity) : Bool :=
  match e.id with
  | RecordId.str s => !(ids.contains s)
  | RecordId.src _ _ => true

/-- Removes the Age property from an entity: everything except the one value
computed from the current wall-clock year. -/
def stripEntityAge (e : ResultEntity) : ResultEntity :=
  { e with props := e.props.filter (fun q => !(q.1 == "Age")) }

/-- Removes the Age properties from a result graph, leaving identifiers, all
other property values, provenance and links untouched. -/
def stripAge (r : Result) : Result :=
  { entities := r.entities.map stripEntityAge, links := r.links }

/-- The person property block without the clock-dependent Age property. -/
def personPropsNoAge (person : IPerson) : List (String × PropValue) :=
  collapseProps
    [("First Name", some (PropValue.str person.forename)),
     ("Last Name", some (PropValue.str person.surname)),
     ("Year of Birth", some (PropValue.str person.dob)),
     ("SSN", some (PropValue.str person.ssn)),
     ("SSN Issued Date and Time",
       some (PropValue.dateTime person.issuedDateAndTime "Europe/London" false))]

/-- The entity at the given key in the graph carries no property of the given
name. -/
def entityLacksProp (r : Result) (k : EntityKey) (name : String) : Prop :=
  ∀ e ∈ r.entities, (e.typeId, e.id) = k →
    e.props.all (fun q => !(q.1 == name)) = true

/-- A property that every step of a left fold preserves holds of the fold. -/
theorem foldl_preserves {α β : Type} {f : β → α → β} {Q : β → Prop}
    (hpres : ∀ r y, Q r → Q (f r y)) :
    ∀ (l : List α) (r : β), Q r → Q (l.foldl f r)
  | [], _, h => h
  | y :: l, r, h => foldl_preserves hpres l (f r y) (hpres r y h)

/-- A property established by the step of some list member and preserved by all
later steps holds of the fold, whatever the starting value. -/
theorem foldl_establishes {α β : Type} {f : β → α → β} {Q : β → Prop} {x : α}
    (hest : ∀ r, Q (f r x)) (hpres : ∀ r y, Q r → Q (f r y)) :
    ∀ (l : List α), x ∈ l → ∀ (r : β), Q (l.foldl f r)
  | [], hx, _ => absurd hx (List.not_mem_nil x)
  | y :: l, hx, r => by
    rcases List.mem_cons.mp hx with rfl | hmem
    · exact foldl_preserves hpres l (f r x) (hest r)
    · exact foldl_establishes hest hpres l hmem (f r y)

/-- A property preserved by every successful step of `foldE` holds of a
successful fold. -/
theorem foldE_preserves {α : Type} {f : α → Result → Except DataFormatError Result}
    {Q : Result → Prop}
    (hpres : ∀ d r r2, Q r → f d r = Except.ok r2 → Q r2) :
    ∀ (l : List α) (r g : Result), Q r → foldE f l r = Except.ok g → Q g
  | [], r, g, hq, hfold => by
    cases hfold
    exact hq
  | d :: l, r, g, hq, hfold => by
    unfold foldE at hfold
    cases hstep : f d r with
    | error e => rw [hstep] at hfold; cases hfold
    | ok r2 => rw [hstep] at hfold; exact foldE_preserves hpres l r2 g (hpres d r r2 hq hstep) hfold

/-- Adding or updating an entity never touches the links of the graph. -/
theorem addEntityOp_links (r : Result) (t : String) (id : RecordId)
    (props : List (String × PropValue)) (ref : Option SourceRef) :
    (r.addEntityOp t id props ref).links = r.links := by
  unfold Result.addEntityOp
  split <;> rfl

/-- Adding a link never touches the entities of the graph. -/
theorem addLinkOp_entities (r : Result) (t : String) (id : RecordId)
    (fromKey toKey : EntityKey) (ref : Option SourceRef) :
    (r.addLinkOp t id fromKey toKey ref).entities = r.entities := by
  unfold Result.addLinkOp
  split <;> rfl

/-- The entity keys after `addEntityOp` are the old keys when the key was
already present, and the old keys with the new key appended otherwise. -/
theorem addEntityOp_entityKeys (r : Result) (t : String) (id : RecordId)
    (props : List (String × PropValue)) (ref : Option SourceRef) :
    (r.addEntityOp t id props ref).entityKeys = r.entityKeys
    ∨ (r.addEntityOp t id props ref).entityKeys = r.entityKeys ++ [(t, id)] := by
  unfold Result.addEntityOp Result.entityKeys
  split
  · left
    simp only [List.map_map]
    apply List.map_congr_left
    intro e _
    simp only [Function.comp_apply]
    split <;> rfl
  · right
    simp

/-- Entity-key membership is monotone along `addEntityOp`. -/
theorem addEntityOp_key_mono (r : Result) (t : String) (id : RecordId)
    (props : List (String × PropValue)) (ref : Option SourceRef) (k : EntityKey)
    (hk : k ∈ r.entityKeys) : k ∈ (r.addEntityOp t id props ref).entityKeys := by
  rcases addEntityOp_entityKeys r t id props ref with h | h <;> rw [h]
  · exact hk
  · exact List.mem_append_left _ hk

/-- After `addEntityOp` the added key is an entity key of the graph. -/
theorem addEntityOp_key_mem (r : Result) (t : String) (id : RecordId)
    (props : List (String × PropValue)) (ref : Option SourceRef) :
    (t, id) ∈ (r.addEntityOp t id props ref).entityKeys := by
  unfold Result.addEntityOp Result.entityKeys
  split
  · rename_i hany
    rcases List.any_eq_true.mp hany with ⟨e, he, hcond⟩
    have h1 := (Bool.and_eq_true _ _).mp hcond
    have ht : e.typeId = t := by exact_mod_cast eq_of_beq h1.1
    have hid : e.id = id := by exact_mod_cast eq_of_beq h1.2
    apply List.mem_map.mpr
    refine ⟨{ e with props := props, sourceRef := ref }, ?_, by simp [ht, hid]⟩
    apply List.mem_map.mpr
    exact ⟨e, he, by rw [if_pos hcond]⟩
  · simp

/-- The link keys after `addLinkOp` are the old keys when the key was already
present, and the old keys with the new key appended otherwise. -/
theorem addLinkOp_linkKeys (r : Result) (t : String) (id : RecordId)
    (fromKey toKey : EntityKey) (ref : Option SourceRef) :
    (r.addLinkOp t id fromKey toKey ref).linkKeys = r.linkKeys
    ∨ (r.addLinkOp t id fromKey toKey ref).linkKeys = r.linkKeys ++ [(t, id)] := by
  unfold Result.addLinkOp Result.linkKeys
  split
  · left; rfl
  · right; simp

/-- Link-key membership is monotone along `addLinkOp`. -/
theorem addLinkOp_key_mono (r : Result) (t : String) (id : RecordId)
    (fromKey toKey : EntityKey) (ref : Option SourceRef) (k : EntityKey)
    (hk : k ∈ r.linkKeys) : k ∈ (r.addLinkOp t id fromKey toKey ref).linkKeys := by
  rcases addLinkOp_linkKeys r t id fromKey toKey ref with h | h <;> rw [h]
  · exact hk
  · exact List.mem_append_left _ hk

/-- After `addLinkOp` the added key is a link key of the graph. -/
theorem addLinkOp_key_mem (r : Result) (t : String) (id : RecordId)
    (fromKey toKey : EntityKey) (ref : Option SourceRef) :
    (t, id) ∈ (r.addLinkOp t id fromKey toKey ref).linkKeys := by
  unfold Result.addLinkOp Result.linkKeys
  split
  · rename_i hany
    rcases List.any_eq_true.mp hany with ⟨l, hl, hcond⟩
    have h1 := (Bool.and_eq_true _ _).mp hcond
    have ht : l.typeId = t := by exact_mod_cast eq_of_beq h1.1
    have hid : l.id = id := by exact_mod_cast eq_of_beq h1.2
    exact List.mem_map.mpr ⟨l, hl, by simp [ht, hid]⟩
  · simp

/-- Link membership is monotone along `addLinkOp`. -/
theorem addLinkOp_mem_mono (r : Result) (t : String) (id : RecordId)
    (fromKey toKey : EntityKey) (ref : Option SourceRef) (l : ResultLink)
    (hl : l ∈ r.links) : l ∈ (r.addLinkOp t id fromKey toKey ref).links := by
  unfold Result.addLinkOp
  split
  · exact hl
  · exact List.mem_append_left _ hl

/-- `addEntityOp` keeps entity keys duplicate-free. -/
theorem addEntityOp_nodup (r : Result) (t : String) (id : RecordId)
    (props : List (String × PropValue)) (ref : Option SourceRef)
    (h : r.entityKeys.Nodup) : (r.addEntityOp t id props ref).entityKeys.Nodup := by
  rcases addEntityOp_entityKeys r t id props ref with he | he <;> rw [he]
  · exact h
  · have habs : (t, id) ∉ r.entityKeys := by
      intro hmem
      rcases List.mem_map.mp hmem with ⟨e, hel, hkey⟩
      have ht : e.typeId = t := congrArg Prod.fst hkey
      have hid : e.id = id := congrArg Prod.snd hkey
      have : r.entities.any (fun e => e.typeId == t && e.id == id) = true :=
        List.any_eq_true.mpr ⟨e, hel, by simp [ht, hid]⟩
      unfold Result.addEntityOp at he
      rw [if_pos this] at he
      have := congrArg List.length he
      simp [Result.entityKeys] at this
    refine List.nodup_append.mpr ⟨h, List.nodup_singleton _, ?_⟩
    intro x hx hx'
    rw [List.mem_singleton] at hx'
    subst hx'
    exact habs hx

/-- `addLinkOp` keeps link keys duplicate-free. -/
theorem addLinkOp_nodup (r : Result) (t : String) (id : RecordId)
    (fromKey toKey : EntityKey) (ref : Option SourceRef)
    (h : r.linkKeys.Nodup) : (r.addLinkOp t id fromKey toKey ref).linkKeys.Nodup := by
  unfold Result.addLinkOp
  split
  · exact h
  · rename_i hany
    have habs : (t, id) ∉ r.linkKeys := by
      intro hmem
      rcases List.mem_map.mp hmem with ⟨l, hll, hkey⟩
      have ht : l.typeId = t := congrArg Prod.fst hkey
      have hid : l.id = id := congrArg Prod.snd hkey
      rw [Bool.not_eq_true] at hany
      have : r.links.any (fun l => l.typeId == t && l.id == id) = true :=
        List.any_eq_true.mpr ⟨l, hll, by simp [ht, hid]⟩
      rw [hany] at this
      cases this
    have hkeys : ({ r with links := r.links ++ [⟨t, id, fromKey, toKey, ref⟩] } : Result).linkKeys
        = r.linkKeys ++ [(t, id)] := by
      simp [Result.linkKeys]
    rw [hkeys]
    refine List.nodup_append.mpr ⟨h, List.nodup_singleton _, ?_⟩
    intro x hx hx'
    rw [List.mem_singleton] at hx'
    subst hx'
    exact habs hx

/-- Totality of the code-point lexicographic comparison. -/
theorem listCharLe_total : ∀ (xs ys : List Char),
    listCharLe xs ys = true ∨ listCharLe ys xs = true
  | [], _ => Or.inl rfl
  | _ :: _, [] => Or.inr rfl
  | a :: as, b :: bs => by
    unfold listCharLe
    by_cases h1 : a.toNat < b.toNat
    · left
      rw [if_pos h1]
    · by_cases h2 : b.toNat < a.toNat
      · right
        rw [if_pos h2]
      · rw [if_neg h1, if_neg h2, if_neg h2, if_neg h1]
        exact listCharLe_total as bs

/-- Antisymmetry of the code-point lexicographic comparison. -/
theorem listCharLe_antisymm : ∀ (xs ys : List Char),
    listCharLe xs ys = true → listCharLe ys xs = true → xs = ys
  | [], [], _, _ => rfl
  | [], _ :: _, _, h => by cases h
  | _ :: _, [], h, _ => by cases h
  | a :: as, b :: bs, hab, hba => by
    unfold listCharLe at hab hba
    by_cases h1 : a.toNat < b.toNat
    · rw [if_neg (Nat.lt_asymm h1), if_pos h1] at hba
      cases hba
    · by_cases h2 : b.toNat < a.toNat
      · rw [if_neg h1, if_pos h2] at hab
        cases hab
      · rw [if_neg h1, if_neg h2] at hab
        rw [if_neg h2, if_neg h1] at hba
        have hc : a = b := by
          have hn : a.toNat = b.toNat :=
            Nat.le_antisymm (Nat.le_of_not_lt h2) (Nat.le_of_not_lt h1)
          rw [← Char.ofNat_toNat a, hn, Char.ofNat_toNat]
        rw [hc, listCharLe_antisymm as bs hab hba]

/-- Totality of the string comparison used by the friend-link identifier. -/
theorem strLe_total (a b : String) : strLe a b = true ∨ strLe b a = true :=
  listCharLe_total a.toList b.toList

/-- Antisymmetry of the string comparison used by the friend-link
identifier. -/
theorem strLe_antisymm (a b : String) (hab : strLe a b = true)
    (hba : strLe b a = true) : a = b := by
  have h := listCharLe_antisymm a.toList b.toList hab hba
  exact String.toList_inj.mp h

/-- C4: the Friendswith link identifier is symmetric in its two arguments — the
identifier computed for the pair (A, B) equals the one computed for (B, A),
because the two underlying ids are sorted lexicographically before being joined
with "-". -/
theorem friendLinkIdentifierSymmetric (a b : String) : sortJoin a b = sortJoin b a := by
  unfold sortJoin
  cases hab : strLe a b <;> cases hba : strLe b a
  · rcases strLe_total a b with h | h
    · rw [hab] at h
      cases h
    · rw [hba] at h
      cases h
  · rfl
  · rfl
  · rw [strLe_antisymm a b hab hba]

/-- C8: the conditional
`seed.isType(Complaint) ? result.addEntityFromSeed(seed) : result.addEntityFromSeed(seed)`
in the NYPD expand service is dead branching — both branches perform the same
operation, so the program is equivalent to unconditionally wrapping the seed,
and the two programs produce identical result graphs for all seeds and all
fetched rows. -/
theorem expandDeadBranchEquivalent (seed : NYPDSeed) (data : List IComplaintDto) :
    expandGraph seed data = expandGraphUncond seed data := by
  unfold expandGraph expandGraphUncond
  rw [ite_self]

/-- C2: `requestData` returns the parsed JSON record sequence exactly when the
HTTP status is 200; every non-200 status produces an error carrying the
response status text, and the `getAll` service invocation then fails with that
transport error instead of returning any graph. -/
theorem requestDataStatusBehaviour (resp : HttpResponse) :
    (resp.status = 200 → requestData resp = resp.jsonBody)
    ∧ (resp.status ≠ 200 →
        requestData resp = Except.error resp.statusText
        ∧ getAllService resp = Except.error (ServiceError.transport resp.statusText))
    ∧ (∀ v, requestData resp = Except.ok v → resp.status = 200) := by
  by_cases h : resp.status = 200
  · refine ⟨fun _ => by simp [requestData, h], fun hne => absurd h hne, fun v _ => h⟩
  · refine ⟨fun he => absurd he h, fun _ => ?_, fun v hv => ?_⟩
    · constructor
      · simp [requestData, h]
      · simp [getAllService, requestData, h]
    · rw [requestData, if_neg h] at hv
      cases hv

/-- Witness for C2: a 404 response with reason phrase "Not Found" makes
`requestData` throw "Not Found" and the `getAll` invocation fail with the
transport error, producing no graph. -/
theorem requestDataStatusBehaviour_witness :
    requestData ⟨404, "Not Found", Except.ok []⟩ = Except.error "Not Found"
    ∧ getAllService ⟨404, "Not Found", Except.ok []⟩
        = Except.error (ServiceError.transport "Not Found") :=
  (requestDataStatusBehaviour ⟨404, "Not Found", Except.ok []⟩).2.1 (by decide)

/-- The link keys are untouched by `addEntityOp`. -/
theorem addEntityOp_linkKeys (r : Result) (t : String) (id : RecordId)
    (props : List (String × PropValue)) (ref : Option SourceRef) :
    (r.addEntityOp t id props ref).linkKeys = r.linkKeys := by
  unfold Result.linkKeys
  rw [addEntityOp_links]

/-- The entity keys are untouched by `addLinkOp`. -/
theorem addLinkOp_entityKeys (r : Result) (t : String) (id : RecordId)
    (fromKey toKey : EntityKey) (ref : Option SourceRef) :
    (r.addLinkOp t id fromKey toKey ref).entityKeys = r.entityKeys := by
  unfold Result.entityKeys
  rw [addLinkOp_entities]

/-- A successful `addLocation` is exactly one `addEntityOp` with the borough
and precinct identifier, the location property block for the three parsed
integers, and the NYPD source reference. -/
theorem addLocation_ok {datum : IComplaintDto} {r : Result} {x : Result × EntityKey}
    (h : addLocation datum r = Except.ok x) :
    ∃ pc la lo, x = (r.addEntityOp "Location" (RecordId.str (locationIdOf datum))
        (locationProps datum pc la lo) (some nypdSourceRef),
      ("Location", RecordId.str (locationIdOf datum))) := by
  unfold addLocation at h
  cases h1 : parseOptField datum.addr_pct_cd with
  | none => rw [h1] at h; cases h
  | some pc =>
    rw [h1] at h
    cases h2 : parseOptField datum.latitude with
    | none => rw [h2] at h; cases h
    | some la =>
      rw [h2] at h
      cases h3 : parseOptField datum.longitude with
      | none => rw [h3] at h; cases h
      | some lo =>
        rw [h3] at h
        cases h
        exact ⟨pc, la, lo, rfl⟩

/-- A successful `addComplaint` is exactly one `addEntityOp` with the
complaint-number identifier, the complaint property block for the two parsed
integers, and the NYPD source reference. -/
theorem addComplaint_ok {datum : IComplaintDto} {r : Result} {x : Result × EntityKey}
    (h : addComplaint datum r = Except.ok x) :
    ∃ j k, x = (r.addEntityOp "Complaint" (RecordId.str (complaintIdOf datum))
        (complaintProps datum j k) (some nypdSourceRef),
      ("Complaint", RecordId.str (complaintIdOf datum))) := by
  unfold addComplaint at h
  cases h1 : parseOptField datum.jurisdiction_code with
  | none => rw [h1] at h; cases h
  | some j =>
    rw [h1] at h
    cases h2 : parseOptField datum.ky_cd with
    | none => rw [h2] at h; cases h
    | some k =>
      rw [h2] at h
      cases h
      exact ⟨j, k, rfl⟩

/-- A property preserved by each NYPD entity addition and link addition is
preserved by the whole `getAll` loop body. -/
theorem processDatum_preserves (P : Result → Prop)
    (hent : ∀ r t id ps, P r → P (r.addEntityOp t id ps (some nypdSourceRef)))
    (hlink : ∀ r t id a b, P r → P (r.addLinkOp t id a b (some nypdSourceRef))) :
    ∀ (d : IComplaintDto) (r g : Result), P r → processDatum d r = Except.ok g → P g := by
  intro d r g hp h
  unfold processDatum at h
  cases hloc : addLocation d r with
  | error e => rw [hloc] at h; cases h
  | ok x =>
    obtain ⟨r1, locKey⟩ := x
    rw [hloc] at h
    dsimp only at h
    rcases addLocation_ok hloc with ⟨pc, la, lo, hx⟩
    have hr1 : r1 = r.addEntityOp "Location" (RecordId.str (locationIdOf d))
        (locationProps d pc la lo) (some nypdSourceRef) := congrArg Prod.fst hx
    cases hcomp : addComplaint d r1 with
    | error e => rw [hcomp] at h; cases h
    | ok y =>
      obtain ⟨r2, compKey⟩ := y
      rw [hcomp] at h
      dsimp only at h
      rcases addComplaint_ok hcomp with ⟨j, k, hy⟩
      have hr2 : r2 = r1.addEntityOp "Complaint" (RecordId.str (complaintIdOf d))
          (complaintProps d j k) (some nypdSourceRef) := congrArg Prod.fst hy
      simp only [addSuspect, addVictim, addNypdLink] at h
      cases h
      subst hr2 hr1
      apply hlink
      apply hlink
      apply hlink
      apply hent
      apply hent
      apply hent
      apply hent
      exact hp

/-- C6: for every sequence of raw records handed to the `getAll` graph
construction, no two constructed entities of the same entity type in the
resulting graph share an identifier — the graph's (type, id) entity keys are
duplicate-free. -/
theorem getAllEntityIdentifiersUnique (data : List IComplaintDto) :
    entityKeysNodupE (getAllGraph data) := by
  unfold entityKeysNodupE
  cases hg : getAllGraph data with
  | error e => trivial
  | ok g =>
    apply foldE_preserves (Q := fun r => r.entityKeys.Nodup) ?step data Result.empty g ?init hg
    case step =>
      intro d r r2 hq hstep
      apply processDatum_preserves (fun r => r.entityKeys.Nodup) ?_ ?_ d r r2 hq hstep
      · intro r t id ps hnd
        exact addEntityOp_nodup r t id ps (some nypdSourceRef) hnd
      · intro r t id a b hnd
        rw [Result.entityKeys, addLinkOp_entities]
        exact hnd
    case init =>
      simp [Result.empty, Result.entityKeys]

/-- A property of the provenance slot that holds for all entities and for the
written reference holds for all entities after `addEntityOp`. -/
theorem addEntityOp_refs {P : Option SourceRef → Prop} (r : Result) (t : String)
    (id : RecordId) (ps : List (String × PropValue)) (ref : Option SourceRef)
    (hr : ∀ e ∈ r.entities, P e.sourceRef) (href : P ref) :
    ∀ e ∈ (r.addEntityOp t id ps ref).entities, P e.sourceRef := by
  unfold Result.addEntityOp
  split
  · intro e he
    rcases List.mem_map.mp he with ⟨e0, he0, rfl⟩
    split
    · exact href
    · exact hr e0 he0
  · intro e he
    rcases List.mem_append.mp he with h | h
    · exact hr e h
    · rw [List.mem_singleton] at h
      subst h
      exact href

/-- A property of the provenance slot that holds for all links and for the
written reference holds for all links after `addLinkOp`. -/
theorem addLinkOp_refs {P : Option SourceRef → Prop} (r : Result) (t : String)
    (id : RecordId) (fromKey toKey : EntityKey) (ref : Option SourceRef)
    (hr : ∀ l ∈ r.links, P l.sourceRef) (href : P ref) :
    ∀ l ∈ (r.addLinkOp t id fromKey toKey ref).links, P l.sourceRef := by
  unfold Result.addLinkOp
  split
  · exact hr
  · intro l hl
    rcases List.mem_append.mp hl with h | h
    · exact hr l h
    · rw [List.mem_singleton] at h
      subst h
      exact href

/-- The provenance invariant of the friend expansion: every entity carries the
example source reference slot filled, and every Friendswith link carries no
source reference at all, preserved by each (person, friend) pair step. -/
theorem addFriendPair_refs (year : Int) (idF : String → RecordId) (p f : IPerson)
    (r : Result)
    (h : (∀ e ∈ r.entities, e.sourceRef.isSome = true) ∧ (∀ l ∈ r.links, l.sourceRef = none)) :
    (∀ e ∈ (addFriendPair year idF p f r).entities, e.sourceRef.isSome = true)
    ∧ (∀ l ∈ (addFriendPair year idF p f r).links, l.sourceRef = none) := by
  unfold addFriendPair addPersonToResult
  dsimp only
  constructor
  · intro e he
    rw [addLinkOp_entities] at he
    exact addEntityOp_refs (P := fun o => o.isSome = true) _ _ _ _ (some personSourceRef)
      (addEntityOp_refs (P := fun o => o.isSome = true) _ _ _ _ (some personSourceRef)
        h.1 rfl) rfl e he
  · apply addLinkOp_refs (P := fun o => o = none)
    · rw [addEntityOp_links, addEntityOp_links]
      exact h.2
    · rfl

/-- C7 (amended): every entity built from fetched data carries exactly one
provenance reference, and so do the NYPD links; but the Friendswith links of
the friend expansion carry no provenance reference, for every dataset, seed
list and id factory. -/
theorem provenanceCoverage_amended {σ : Type} (dataset : List IPerson) (year : Int)
    (seeds : List σ) (ext : σ → List String) (idF : String → RecordId)
    (data : List IComplaintDto) :
    (∀ e ∈ (getFriendsLinkedToSeeds dataset year seeds ext idF).entities,
        e.sourceRef.isSome = true)
    ∧ (∀ l ∈ (getFriendsLinkedToSeeds dataset year seeds ext idF).links,
        l.sourceRef = none)
    ∧ refsAllSomeE (getAllGraph data) := by
  have hfriends : (∀ e ∈ (getFriendsLinkedToSeeds dataset year seeds ext idF).entities,
      e.sourceRef.isSome = true)
      ∧ (∀ l ∈ (getFriendsLinkedToSeeds dataset year seeds ext idF).links,
        l.sourceRef = none) := by
    unfold getFriendsLinkedToSeeds
    apply foldl_preserves (Q := fun (r : Result) =>
      (∀ e ∈ r.entities, e.sourceRef.isSome = true) ∧ (∀ l ∈ r.links, l.sourceRef = none))
    · intro r seed hq
      apply foldl_preserves (Q := fun (r : Result) =>
        (∀ e ∈ r.entities, e.sourceRef.isSome = true) ∧ (∀ l ∈ r.links, l.sourceRef = none))
      · intro r person hq2
        apply foldl_preserves (Q := fun (r : Result) =>
          (∀ e ∈ r.entities, e.sourceRef.isSome = true) ∧ (∀ l ∈ r.links, l.sourceRef = none))
        · intro r friend hq3
          exact addFriendPair_refs year idF person friend r hq3
        · exact hq2
      · exact hq
    · exact ⟨fun e he => absurd he (List.not_mem_nil e), fun l hl => absurd hl (List.not_mem_nil l)⟩
  refine ⟨hfriends.1, hfriends.2, ?_⟩
  unfold refsAllSomeE
  cases hg : getAllGraph data with
  | error e => trivial
  | ok g =>
    apply foldE_preserves (Q := fun (r : Result) =>
      (∀ e ∈ r.entities, e.sourceRef.isSome = true) ∧ (∀ l ∈ r.links, l.sourceRef.isSome = true))
      ?step data Result.empty g ?init hg
    case step =>
      intro d r r2 hq hstep
      apply processDatum_preserves (fun (r : Result) =>
        (∀ e ∈ r.entities, e.sourceRef.isSome = true) ∧ (∀ l ∈ r.links, l.sourceRef.isSome = true))
        ?_ ?_ d r r2 hq hstep
      · intro r t id ps hq2
        refine ⟨addEntityOp_refs (P := fun o => o.isSome = true) r t id ps
          (some nypdSourceRef) hq2.1 rfl, ?_⟩
        rw [addEntityOp_links]
        exact hq2.2
      · intro r t id a b hq2
        refine ⟨?_, addLinkOp_refs (P := fun o => o.isSome = true) r t id a b
          (some nypdSourceRef) hq2.2 rfl⟩
        rw [addLinkOp_entities]
        exact hq2.1
    case init =>
      exact ⟨fun e he => absurd he (List.not_mem_nil e), fun l hl => absurd hl (List.not_mem_nil l)⟩

/-- Counterexample for C7 as stated: with a two-person dataset in which person
p1 declares p2 as a friend, and one seed resolving to p1, the friend expansion
produces a graph whose Friendswith link carries no provenance reference, so it
is false that every produced link carries exactly one provenance reference. -/
theorem provenanceCoverage_counterexample :
    ((getFriendsLinkedToSeeds
        [⟨"p1", "Ann", "Alpha", "1990-01-01", "111", "2020-01-01T00:00:00", ["p2"]⟩,
         ⟨"p2", "Bob", "Beta", "1991-02-02", "222", "2020-01-01T00:00:00", []⟩]
        2025 [["p1"]] (fun s => s) RecordId.str).links.all
      (fun l => l.sourceRef.isSome)) = false := by decide

/-- A property preserved by the step of every list member holds of the fold. -/
theorem foldl_preserves_of_mem {α β : Type} {f : β → α → β} {Q : β → Prop} :
    ∀ (l : List α), (∀ r y, y ∈ l → Q r → Q (f r y)) → ∀ r, Q r → Q (l.foldl f r)
  | [], _, _, h => h
  | y :: l, hpres, r, h =>
    foldl_preserves_of_mem l (fun r z hz hq => hpres r z (List.mem_cons_of_mem y hz) hq)
      (f r y) (hpres r y (List.mem_cons_self y l) h)

/-- A Boolean entity predicate that is stable under property and provenance
updates, holds of the newly added entity, and holds of all existing entities,
holds of all entities after `addEntityOp`. -/
theorem addEntityOp_entpred {P : ResultEntity → Bool} (r : Result) (t : String)
    (id : RecordId) (ps : List (String × PropValue)) (ref : Option SourceRef)
    (hstable : ∀ e, P e = true → P { e with props := ps, sourceRef := ref } = true)
    (hnew : P ⟨t, id, ps, ref⟩ = true)
    (hr : ∀ e ∈ r.entities, P e = true) :
    ∀ e ∈ (r.addEntityOp t id ps ref).entities, P e = true := by
  unfold Result.addEntityOp
  split
  · intro e he
    rcases List.mem_map.mp he with ⟨e0, he0, rfl⟩
    split
    · exact hstable e0 (hr e0 he0)
    · exact hr e0 he0
  · intro e he
    rcases List.mem_append.mp he with h | h
    · exact hr e h
    · rw [List.mem_singleton] at h
      subst h
      exact hnew

/-- C10: the "find like this" seeded search never returns an entity for a
person whose id appears among the seed's Person connector-key ids — records
already charted are excluded, whatever the dataset, the year, the seed and the
year-of-birth option. -/
theorem seededSearchExcludesCharted (dataset : List IPerson) (year : Int)
    (seed : PersonSeed) (useYearOfBirth : Option Bool) :
    ((exampleSeededSearch1 dataset year seed useYearOfBirth).entities.all
      (idExcluded seed.connectorKeyIds)) = true := by
  rw [List.all_eq_true]
  unfold exampleSeededSearch1
  apply foldl_preserves_of_mem (Q := fun (r : Result) =>
    ∀ e ∈ r.entities, idExcluded seed.connectorKeyIds e = true)
  · intro r person hmem hq
    unfold addPersonToResult
    dsimp only
    apply addEntityOp_entpred
    · intro e hp
      exact hp
    · have hpred := (List.mem_filter.mp hmem).2
      unfold seededSearch1Pred at hpred
      by_cases hc : seed.connectorKeyIds.contains person.id = true
      · rw [if_pos hc] at hpred
        cases hpred
      · unfold idExcluded
        dsimp only
        rw [Bool.not_eq_true] at hc
        rw [hc]
        rfl
    · exact hq
  · intro e he
    exact absurd he (List.not_mem_nil e)

/-- Filtering the Age property out of the person property block yields the
year-independent block. -/
theorem personProps_filter (year : Int) (person : IPerson) :
    (personProps year person).filter (fun q => !(q.1 == "Age")) = personPropsNoAge person := by
  cases h : yearOfDob person.dob <;>
    simp [personProps, personPropsNoAge, collapseProps, h, List.filter]

/-- `stripAge` commutes with `addEntityOp`, turning the written property block
into its Age-free filtering. -/
theorem stripAge_addEntityOp (r : Result) (t : String) (id : RecordId)
    (ps : List (String × PropValue)) (ref : Option SourceRef) :
    stripAge (r.addEntityOp t id ps ref)
      = (stripAge r).addEntityOp t id (ps.filter (fun q => !(q.1 == "Age"))) ref := by
  have hany : (r.entities.any (fun e => e.typeId == t && e.id == id))
      = ((stripAge r).entities.any (fun e => e.typeId == t && e.id == id)) := by
    unfold stripAge
    dsimp only
    rw [List.any_map]
    rfl
  unfold Result.addEntityOp
  by_cases hc : (r.entities.any fun e => e.typeId == t && e.id == id) = true
  · rw [if_pos hc, if_pos (hany ▸ hc)]
    unfold stripAge
    dsimp only
    congr 1
    rw [List.map_map, List.map_map]
    apply List.map_congr_left
    intro e _
    simp only [Function.comp_apply]
    by_cases hce : (e.typeId == t && e.id == id) = true
    · rw [if_pos hce]
      rw [if_pos (show ((stripEntityAge e).typeId == t && (stripEntityAge e).id == id) = true from hce)]
      rfl
    · rw [if_neg hce]
      rw [if_neg (show ¬ ((stripEntityAge e).typeId == t && (stripEntityAge e).id == id) = true from hce)]
  · rw [if_neg hc, if_neg (fun hcc => hc (hany ▸ hcc))]
    unfold stripAge
    dsimp only
    congr 1
    rw [List.map_append]
    rfl

/-- `stripAge` after adding a person is `addEntityOp` with the year-free
property block on the stripped graph: the year influences nothing else. -/
theorem stripAge_addPerson (year : Int) (p : IPerson) (idF : String → RecordId)
    (r : Result) :
    stripAge (addPersonToResult year p idF r).1
      = (stripAge r).addEntityOp "Person" (idF p.id) (personPropsNoAge p)
          (some personSourceRef) := by
  unfold addPersonToResult
  dsimp only
  rw [stripAge_addEntityOp, personProps_filter]

/-- Folding person additions over the same list with two different observed
years produces graphs with the same Age-stripped content. -/
theorem foldPersons_stripAge (idF : String → RecordId) :
    ∀ (l : List IPerson) (y1 y2 : Int) (r1 r2 : Result), stripAge r1 = stripAge r2 →
      stripAge (l.foldl (fun r p => (addPersonToResult y1 p idF r).1) r1)
        = stripAge (l.foldl (fun r p => (addPersonToResult y2 p idF r).1) r2)
  | [], _, _, _, _, h => h
  | p :: l, y1, y2, r1, r2, h =>
    foldPersons_stripAge idF l y1 y2 _ _
      (by rw [stripAge_addPerson, stripAge_addPerson, h])

/-- C9 (amended): building the result twice from the same person data yields
identical entity identifiers, identical links, and identical property values
except for Age, which is computed from the wall-clock year observed by the
run; two runs observing the same year agree everywhere. -/
theorem buildTwiceIdentifiersStable (dataset : List IPerson) (term : String)
    (idF : String → RecordId) (y1 y2 : Int) :
    stripAge (findPeople dataset y1 term idF) = stripAge (findPeople dataset y2 term idF)
    ∧ (findPeople dataset y1 term idF).entityKeys = (findPeople dataset y2 term idF).entityKeys
    ∧ (findPeople dataset y1 term idF).links = (findPeople dataset y2 term idF).links := by
  have hkeys : ∀ r : Result, r.entityKeys = (stripAge r).entityKeys := by
    intro r
    unfold stripAge Result.entityKeys
    dsimp only
    rw [List.map_map]
    rfl
  have hmain : stripAge (findPeople dataset y1 term idF)
      = stripAge (findPeople dataset y2 term idF) := by
    unfold findPeople
    exact foldPersons_stripAge idF (dataset.filter (findPeoplePred term)) y1 y2
      Result.empty Result.empty rfl
  refine ⟨hmain, ?_, ?_⟩
  · rw [hkeys, hmain, ← hkeys]
  · have hlinks : ∀ r : Result, r.links = (stripAge r).links := fun _ => rfl
    rw [hlinks, hmain, ← hlinks]

/-- Counterexample for C9 as stated: the same one-person dataset fed to
`findPeople` in two runs that observe different calendar years produces
different graphs — the Age property value differs — so two invocations over
identical data are not always identical. -/
theorem buildTwice_counterexample :
    findPeople [⟨"p1", "Ann", "Alpha", "1990-01-01", "111", "2020-01-01T00:00:00", []⟩]
        2025 "*" RecordId.str
      ≠ findPeople [⟨"p1", "Ann", "Alpha", "1990-01-01", "111", "2020-01-01T00:00:00", []⟩]
        2026 "*" RecordId.str := by decide

/-- If every entry of the raw property list whose name matches is absent, the
collapsed property block carries no property of that name. -/
theorem collapseProps_lacks (l : List (String × Option PropValue)) (name : String)
    (h : ∀ q ∈ l, q.1 = name → q.2 = none) :
    (collapseProps l).all (fun q => !(q.1 == name)) = true := by
  induction l with
  | nil => rfl
  | cons q l ih =>
    obtain ⟨n, ov⟩ := q
    have htail := ih (fun q2 h2 hn => h q2 (List.mem_cons_of_mem (n, ov) h2) hn)
    unfold collapseProps at htail ⊢
    rw [List.filterMap_cons]
    cases ov with
    | none => exact htail
    | some v =>
      show ((n, v) :: List.filterMap (fun p => Option.map (fun v => (p.1, v)) p.2) l).all
          (fun q => !(q.1 == name)) = true
      rw [List.all_cons, Bool.and_eq_true]
      refine ⟨?_, htail⟩
      dsimp only
      rw [Bool.not_eq_true']
      apply beq_eq_false_iff_ne.mpr
      intro hn
      have hh := h (n, some v) (List.mem_cons_self (n, some v) l) hn
      cases hh

/-- After `addEntityOp` with a property block lacking the given name, the
entity at the added key lacks that property. -/
theorem addEntityOp_lacks (r : Result) (t : String) (id : RecordId)
    (ps : List (String × PropValue)) (ref : Option SourceRef) (name : String)
    (hps : ps.all (fun q => !(q.1 == name)) = true) :
    entityLacksProp (r.addEntityOp t id ps ref) (t, id) name := by
  unfold entityLacksProp Result.addEntityOp
  split
  · intro e he hkey
    rcases List.mem_map.mp he with ⟨e0, he0, rfl⟩
    rename_i hany
    by_cases hce : (e0.typeId == t && e0.id == id) = true
    · rw [if_pos hce] at hkey ⊢
      exact hps
    · rw [if_neg hce] at hkey
      have ht : e0.typeId = t := congrArg Prod.fst hkey
      have hid : e0.id = id := congrArg Prod.snd hkey
      exact absurd (by simp [ht, hid]) hce
  · intro e he hkey
    rename_i hany
    rcases List.mem_append.mp he with hmem | hmem
    · rw [Bool.not_eq_true] at hany
      have ht : e.typeId = t := congrArg Prod.fst hkey
      have hid : e.id = id := congrArg Prod.snd hkey
      have : r.entities.any (fun e => e.typeId == t && e.id == id) = true :=
        List.any_eq_true.mpr ⟨e, hmem, by simp [ht, hid]⟩
      rw [hany] at this
      cases this
    · rw [List.mem_singleton] at hmem
      subst hmem
      exact hps

/-- C3: the entity builders omit a property without throwing when an optional
source field is absent, and throw a DataFormatError naming the property when a
mandatory numeric field (precinct code, jurisdiction code) cannot be parsed as
a number. -/
theorem entityBuilderFieldPolicy (datum : IComplaintDto) (r : Result) :
    (datum.ofns_desc = none → ∀ j k, parseOptField datum.jurisdiction_code = some j →
      parseOptField datum.ky_cd = some k →
      ∃ x, addComplaint datum r = Except.ok x
        ∧ entityLacksProp x.1 x.2 "Offence Description")
    ∧ (parseOptField datum.jurisdiction_code = none →
        addComplaint datum r = Except.error ⟨"Jurisdiction Code"⟩)
    ∧ (parseOptField datum.addr_pct_cd = none →
        addLocation datum r = Except.error ⟨"Precinct Code"⟩)
    ∧ (datum.boro_nm = none → ∀ pc la lo, parseOptField datum.addr_pct_cd = some pc →
        parseOptField datum.latitude = some la → parseOptField datum.longitude = some lo →
      ∃ x, addLocation datum r = Except.ok x
        ∧ entityLacksProp x.1 x.2 "Borough Name") := by
  refine ⟨?_, ?_, ?_, ?_⟩
  · intro hd j k hj hk
    refine ⟨_, by unfold addComplaint; rw [hj, hk], ?_⟩
    apply addEntityOp_lacks
    apply collapseProps_lacks
    intro q hq hn
    unfold complaintProps at hq
    simp only [List.mem_cons, List.not_mem_nil, or_false] at hq
    rcases hq with rfl | rfl | rfl | rfl | rfl | rfl <;>
      first
        | (rw [hd]; rfl)
        | exact absurd hn (by simp)
  · intro hj
    unfold addComplaint
    rw [hj]
  · intro hp
    unfold addLocation
    rw [hp]
  · intro hb pc la lo hp hla hlo
    refine ⟨_, by unfold addLocation; rw [hp, hla, hlo], ?_⟩
    apply addEntityOp_lacks
    apply collapseProps_lacks
    intro q hq hn
    unfold locationProps at hq
    simp only [List.mem_cons, List.not_mem_nil, or_false] at hq
    rcases hq with rfl | rfl | rfl <;>
      first
        | (rw [hb]; rfl)
        | exact absurd hn (by simp)

/-- Witness for C3: a concrete record lacking the offence description and the
borough name builds entities without those properties, and a concrete record
with non-numeric jurisdiction and precinct codes makes the builders throw the
corresponding DataFormatError. -/
theorem entityBuilderFieldPolicy_witness :
    (∃ x, addComplaint ⟨some "100", some "COMPLETED", some "1", some "2", some "FELONY",
        none, some "3", none, some "40", some "-73", some "25-44", some "B", some "M",
        some "18-24", some "W", some "F"⟩ Result.empty = Except.ok x
      ∧ entityLacksProp x.1 x.2 "Offence Description")
    ∧ addComplaint ⟨some "100", some "COMPLETED", some "abc", some "2", some "FELONY",
        some "THEFT", some "xyz", some "BRONX", some "40", some "-73", some "25-44",
        some "B", some "M", some "18-24", some "W", some "F"⟩ Result.empty
      = Except.error ⟨"Jurisdiction Code"⟩
    ∧ addLocation ⟨some "100", some "COMPLETED", some "abc", some "2", some "FELONY",
        some "THEFT", some "xyz", some "BRONX", some "40", some "-73", some "25-44",
        some "B", some "M", some "18-24", some "W", some "F"⟩ Result.empty
      = Except.error ⟨"Precinct Code"⟩
    ∧ (∃ x, addLocation ⟨some "100", some "COMPLETED", some "1", some "2", some "FELONY",
        none, some "3", none, some "40", some "-73", some "25-44", some "B", some "M",
        some "18-24", some "W", some "F"⟩ Result.empty = Except.ok x
      ∧ entityLacksProp x.1 x.2 "Borough Name") := by
  have h0 := entityBuilderFieldPolicy ⟨some "100", some "COMPLETED", some "1", some "2",
    some "FELONY", none, some "3", none, some "40", some "-73", some "25-44", some "B",
    some "M", some "18-24", some "W", some "F"⟩ Result.empty
  have h1 := entityBuilderFieldPolicy ⟨some "100", some "COMPLETED", some "abc", some "2",
    some "FELONY", some "THEFT", some "xyz", some "BRONX", some "40", some "-73",
    some "25-44", some "B", some "M", some "18-24", some "W", some "F"⟩ Result.empty
  exact ⟨h0.1 rfl 1 2 (by decide) (by decide), h1.2.1 (by decide), h1.2.2.1 (by decide),
    h0.2.2.2 rfl 3 40 (-73) (by decide) (by decide) (by decide)⟩

/-- On a graph without links yet, `addLinkOp` adds exactly the given link. -/
theorem addLinkOp_mem_of_empty (r : Result) (t : String) (id : RecordId)
    (fromKey toKey : EntityKey) (ref : Option SourceRef) (h : r.links = []) :
    (⟨t, id, fromKey, toKey, ref⟩ : ResultLink) ∈ (r.addLinkOp t id fromKey toKey ref).links := by
  unfold Result.addLinkOp
  rw [h]
  dsimp only [List.any_nil]
  rw [if_neg (by intro hc; cases hc)]
  dsimp only
  simp

/-- C5: if the fetch returns exactly one record with complaint number "100",
borough name "BROOKLYN" and precinct code "1" (and its other mandatory numeric
fields parse), the `getAll` graph contains the Complaint entity with
identifier "Complaint: 100", the Location entity with identifier
"Borough: BROOKLYN Precinct: 1", and a Locatedat link between them with
identifier "100". -/
theorem getAllScenario1 (datum : IComplaintDto) (la lo j k : Int)
    (hc : datum.cmplnt_num = some "100") (hb : datum.boro_nm = some "BROOKLYN")
    (ha : datum.addr_pct_cd = some "1")
    (hla : parseOptField datum.latitude = some la)
    (hlo : parseOptField datum.longitude = some lo)
    (hj : parseOptField datum.jurisdiction_code = some j)
    (hk : parseOptField datum.ky_cd = some k) :
    ∃ g, getAllGraph [datum] = Except.ok g
      ∧ ("Complaint", RecordId.str "Complaint: 100") ∈ g.entityKeys
      ∧ ("Location", RecordId.str "Borough: BROOKLYN Precinct: 1") ∈ g.entityKeys
      ∧ ∃ l ∈ g.links, l.typeId = "Locatedat" ∧ l.id = RecordId.str "100"
          ∧ l.fromKey = ("Complaint", RecordId.str "Complaint: 100")
          ∧ l.toKey = ("Location", RecordId.str "Borough: BROOKLYN Precinct: 1") := by
  have hpc : parseOptField datum.addr_pct_cd = some 1 := by rw [ha]; decide
  have hlocId : locationIdOf datum = "Borough: BROOKLYN Precinct: 1" := by
    unfold locationIdOf
    rw [hb, ha]
    rfl
  have hcompId : complaintIdOf datum = "Complaint: 100" := by
    unfold complaintIdOf
    rw [hc]
    rfl
  have hjs : jsStr datum.cmplnt_num = "100" := by rw [hc]; rfl
  have hl : addLocation datum Result.empty = Except.ok
      (Result.empty.addEntityOp "Location" (RecordId.str "Borough: BROOKLYN Precinct: 1")
        (locationProps datum 1 la lo) (some nypdSourceRef),
       ("Location", RecordId.str "Borough: BROOKLYN Precinct: 1")) := by
    unfold addLocation
    rw [hpc, hla, hlo, hlocId]
  have hcmp : addComplaint datum
      (Result.empty.addEntityOp "Location" (RecordId.str "Borough: BROOKLYN Precinct: 1")
        (locationProps datum 1 la lo) (some nypdSourceRef)) = Except.ok
      ((Result.empty.addEntityOp "Location" (RecordId.str "Borough: BROOKLYN Precinct: 1")
          (locationProps datum 1 la lo) (some nypdSourceRef)).addEntityOp "Complaint"
          (RecordId.str "Complaint: 100") (complaintProps datum j k) (some nypdSourceRef),
       ("Complaint", RecordId.str "Complaint: 100")) := by
    unfold addComplaint
    rw [hj, hk, hcompId]
  have hsingle : getAllGraph [datum] = processDatum datum Result.empty := by
    unfold getAllGraph foldE
    cases hx : processDatum datum Result.empty <;> rfl
  rw [hsingle]
  unfold processDatum
  rw [hl]
  dsimp only
  rw [hcmp]
  dsimp only
  unfold addSuspect addVictim addNypdLink
  dsimp only
  rw [hjs]
  refine ⟨_, rfl, ?_, ?_, ?_⟩
  · rw [addLinkOp_entityKeys, addLinkOp_entityKeys, addLinkOp_entityKeys]
    apply addEntityOp_key_mono
    apply addEntityOp_key_mono
    exact addEntityOp_key_mem _ _ _ _ _
  · rw [addLinkOp_entityKeys, addLinkOp_entityKeys, addLinkOp_entityKeys]
    apply addEntityOp_key_mono
    apply addEntityOp_key_mono
    apply addEntityOp_key_mono
    exact addEntityOp_key_mem _ _ _ _ _
  · refine ⟨⟨"Locatedat", RecordId.str "100",
      ("Complaint", RecordId.str "Complaint: 100"),
      ("Location", RecordId.str "Borough: BROOKLYN Precinct: 1"), some nypdSourceRef⟩,
      ?_, rfl, rfl, rfl, rfl⟩
    apply addLinkOp_mem_mono
    apply addLinkOp_mem_mono
    apply addLinkOp_mem_of_empty
    rw [addEntityOp_links, addEntityOp_links, addEntityOp_links, addEntityOp_links]
    rfl

/-- Witness for C5: a fully concrete fetched record with complaint number
"100", borough "BROOKLYN" and precinct "1" produces the claimed Complaint and
Location entities and the Locatedat link between them. -/
theorem getAllScenario1_witness :
    ∃ g, getAllGraph [⟨some "100", some "COMPLETED", some "1", some "2", some "FELONY",
        some "THEFT", some "1", some "BROOKLYN", some "40", some "-73", some "25-44",
        some "B", some "M", some "18-24", some "W", some "F"⟩] = Except.ok g
      ∧ ("Complaint", RecordId.str "Complaint: 100") ∈ g.entityKeys
      ∧ ("Location", RecordId.str "Borough: BROOKLYN Precinct: 1") ∈ g.entityKeys
      ∧ ∃ l ∈ g.links, l.typeId = "Locatedat" ∧ l.id = RecordId.str "100"
          ∧ l.fromKey = ("Complaint", RecordId.str "Complaint: 100")
          ∧ l.toKey = ("Location", RecordId.str "Borough: BROOKLYN Precinct: 1") :=
  getAllScenario1 ⟨some "100", some "COMPLETED", some "1", some "2", some "FELONY",
      some "THEFT", some "1", some "BROOKLYN", some "40", some "-73", some "25-44",
      some "B", some "M", some "18-24", some "W", some "F"⟩ 40 (-73) 1 2
    rfl rfl rfl (by decide) (by decide) (by decide) (by decide)

/-- Link-key membership is monotone along one (person, friend) pair step. -/
theorem addFriendPair_linkKeys_mono (year : Int) (idF : String → RecordId)
    (p f : IPerson) (r : Result) (k : EntityKey) (hk : k ∈ r.linkKeys) :
    k ∈ (addFriendPair year idF p f r).linkKeys := by
  unfold addFriendPair addPersonToResult
  dsimp only
  apply addLinkOp_key_mono
  rw [addEntityOp_linkKeys, addEntityOp_linkKeys]
  exact hk

/-- After one (person, friend) pair step the sorted-join Friendswith key is a
link key of the graph. -/
theorem addFriendPair_key_mem (year : Int) (idF : String → RecordId)
    (p f : IPerson) (r : Result) :
    ("Friendswith", idF (sortJoin p.id f.id)) ∈ (addFriendPair year idF p f r).linkKeys := by
  unfold addFriendPair addPersonToResult
  dsimp only
  exact addLinkOp_key_mem _ _ _ _ _ _

/-- One (person, friend) pair step keeps link keys duplicate-free. -/
theorem addFriendPair_linkKeys_nodup (year : Int) (idF : String → RecordId)
    (p f : IPerson) (r : Result) (h : r.linkKeys.Nodup) :
    (addFriendPair year idF p f r).linkKeys.Nodup := by
  unfold addFriendPair addPersonToResult
  dsimp only
  apply addLinkOp_nodup
  rw [addEntityOp_linkKeys, addEntityOp_linkKeys]
  exact h

/-- The friend expansion never produces two links with the same (type, id)
key, whatever the dataset, the seeds and the id factory. -/
theorem getFriends_linkKeys_nodup {σ : Type} (dataset : List IPerson) (year : Int)
    (seeds : List σ) (ext : σ → List String) (idF : String → RecordId) :
    (getFriendsLinkedToSeeds dataset year seeds ext idF).linkKeys.Nodup := by
  unfold getFriendsLinkedToSeeds
  apply foldl_preserves (Q := fun (r : Result) => r.linkKeys.Nodup)
  · intro r seed hq
    apply foldl_preserves (Q := fun (r : Result) => r.linkKeys.Nodup)
    · intro r person hq2
      apply foldl_preserves (Q := fun (r : Result) => r.linkKeys.Nodup)
      · intro r friend hq3
        exact addFriendPair_linkKeys_nodup year idF person friend r hq3
      · exact hq2
    · exact hq
  · simp [Result.empty, Result.linkKeys]

/-- If some seed resolves to a person of the dataset one of whose declared
friends is also in the dataset, the sorted-join Friendswith key for the pair
is a link key of the friend expansion result. -/
theorem getFriends_key_mem {σ : Type} (dataset : List IPerson) (year : Int)
    (seeds : List σ) (ext : σ → List String) (idF : String → RecordId)
    (s : σ) (hs : s ∈ seeds) (p : IPerson) (hp : p ∈ dataset)
    (hres : p.id ∈ ext s) (q : IPerson) (hq : q ∈ dataset) (hfr : q.id ∈ p.friends) :
    ("Friendswith", idF (sortJoin p.id q.id))
      ∈ (getFriendsLinkedToSeeds dataset year seeds ext idF).linkKeys := by
  unfold getFriendsLinkedToSeeds
  apply foldl_establishes (x := s) (Q := fun (r : Result) =>
    ("Friendswith", idF (sortJoin p.id q.id)) ∈ r.linkKeys) ?hest ?hpres seeds hs Result.empty
  case hpres =>
    intro r y hk
    apply foldl_preserves (Q := fun (r : Result) =>
      ("Friendswith", idF (sortJoin p.id q.id)) ∈ r.linkKeys)
    · intro r person hk2
      apply foldl_preserves (Q := fun (r : Result) =>
        ("Friendswith", idF (sortJoin p.id q.id)) ∈ r.linkKeys)
      · intro r friend hk3
        exact addFriendPair_linkKeys_mono year idF person friend r _ hk3
      · exact hk2
    · exact hk
  case hest =>
    intro r
    apply foldl_establishes (x := p) (Q := fun (r : Result) =>
      ("Friendswith", idF (sortJoin p.id q.id)) ∈ r.linkKeys) ?hest2 ?hpres2
      (dataset.filter (fun person => (ext s).contains person.id))
      (List.mem_filter.mpr ⟨hp, (List.elem_iff.mpr hres : (ext s).contains p.id = true)⟩) r
    case hpres2 =>
      intro r y hk
      apply foldl_preserves (Q := fun (r : Result) =>
        ("Friendswith", idF (sortJoin p.id q.id)) ∈ r.linkKeys)
      · intro r friend hk3
        exact addFriendPair_linkKeys_mono year idF y friend r _ hk3
      · exact hk
    case hest2 =>
      intro r
      apply foldl_establishes (x := q) (Q := fun (r : Result) =>
        ("Friendswith", idF (sortJoin p.id q.id)) ∈ r.linkKeys) ?hest3 ?hpres3
        (dataset.filter (fun friend => p.friends.contains friend.id))
        (List.mem_filter.mpr ⟨hq, (List.elem_iff.mpr hfr : p.friends.contains q.id = true)⟩) r
      case hpres3 =>
        intro r y hk
        exact addFriendPair_linkKeys_mono year idF p y r _ hk
      case hest3 =>
        intro r
        exact addFriendPair_key_mem year idF p q r

/-- In a link list whose (type, id) keys are duplicate-free, a key that occurs
occurs on exactly one link. -/
theorem filter_linkKey_length_one (l : List ResultLink) (t : String) (id : RecordId) :
    (l.map (fun x => (x.typeId, x.id))).Nodup →
    (t, id) ∈ l.map (fun x => (x.typeId, x.id)) →
    (l.filter (fun x => x.typeId == t && x.id == id)).length = 1 := by
  induction l with
  | nil =>
    intro _ hmem
    cases hmem
  | cons x l ih =>
    intro hnd hmem
    rw [List.map_cons, List.nodup_cons] at hnd
    by_cases hpx : (x.typeId == t && x.id == id) = true
    · have hparts := (Bool.and_eq_true _ _).mp hpx
      have ht : x.typeId = t := by exact_mod_cast eq_of_beq hparts.1
      have hid : x.id = id := by exact_mod_cast eq_of_beq hparts.2
      rw [List.filter_cons, if_pos hpx, List.length_cons]
      have htail : l.filter (fun x => x.typeId == t && x.id == id) = [] := by
        rw [List.filter_eq_nil_iff]
        intro y hy hpy
        have hyparts := (Bool.and_eq_true _ _).mp hpy
        have hyt : y.typeId = t := by exact_mod_cast eq_of_beq hyparts.1
        have hyid : y.id = id := by exact_mod_cast eq_of_beq hyparts.2
        apply hnd.1
        have : (x.typeId, x.id) = (y.typeId, y.id) := by rw [ht, hid, hyt, hyid]
        rw [this]
        exact List.mem_map_of_mem _ hy
      rw [htail]
      rfl
    · rw [List.filter_cons, if_neg hpx]
      apply ih hnd.2
      rcases List.mem_cons.mp hmem with heq | hmemtail
      · exfalso
        apply hpx
        have ht : x.typeId = t := (congrArg Prod.fst heq).symm
        have hid : x.id = id := (congrArg Prod.snd heq).symm
        simp [ht, hid]
      · exact hmemtail

/-- C1: when two distinct seeds both resolve to the same underlying source
person, whose declared friend is also in the dataset, the friend expansion
returns exactly one Friendswith link for the pair, keyed by the sorted join of
the two underlying ids — no duplicate link is produced. -/
theorem friendExpansionSingleLink {σ : Type} (dataset : List IPerson) (year : Int)
    (seeds : List σ) (ext : σ → List String) (pid fid : String)
    (i j : Fin seeds.length) (hij : i ≠ j)
    (hi : pid ∈ ext (seeds.get i)) (hj : pid ∈ ext (seeds.get j))
    (p : IPerson) (hp : p ∈ dataset) (hpid : p.id = pid) (hfr : fid ∈ p.friends)
    (q : IPerson) (hq : q ∈ dataset) (hqid : q.id = fid) :
    ((getFriendsLinkedToSeeds dataset year seeds ext RecordId.str).links.filter
      (fun l => l.typeId == "Friendswith"
        && l.id == RecordId.str (sortJoin pid fid))).length = 1 := by
  subst hpid
  subst hqid
  apply filter_linkKey_length_one
  · exact getFriends_linkKeys_nodup dataset year seeds ext RecordId.str
  · exact getFriends_key_mem dataset year seeds ext RecordId.str
      (seeds.get i) (List.get_mem seeds i.1 i.2) p hp hi q hq hfr

/-- Witness for C1: two seeds both resolving to source person p1, whose friend
p2 is in the dataset, produce exactly one Friendswith link with identifier
"p1-p2". -/
theorem friendExpansionSingleLink_witness :
    ((getFriendsLinkedToSeeds
        [⟨"p1", "Ann", "Alpha", "1990-01-01", "111", "2020-01-01T00:00:00", ["p2"]⟩,
         ⟨"p2", "Bob", "Beta", "1991-02-02", "222", "2020-01-01T00:00:00", []⟩]
        2025 [["p1"], ["p1"]] (fun s => s) RecordId.str).links.filter
      (fun l => l.typeId == "Friendswith" && l.id == RecordId.str "p1-p2")).length = 1 :=
  friendExpansionSingleLink
    [⟨"p1", "Ann", "Alpha", "1990-01-01", "111", "2020-01-01T00:00:00", ["p2"]⟩,
     ⟨"p2", "Bob", "Beta", "1991-02-02", "222", "2020-01-01T00:00:00", []⟩]
    2025 [["p1"], ["p1"]] (fun s => s) "p1" "p2"
    ⟨0, by decide⟩ ⟨1, by decide⟩ (by decide)
    (by decide) (by decide)
    ⟨"p1", "Ann", "Alpha", "1990-01-01", "111", "2020-01-01T00:00:00", ["p2"]⟩
    (by decide) rfl (by decide)
    ⟨"p2", "Bob", "Beta", "1991-02-02", "222", "2020-01-01T00:00:00", []⟩
    (by decide) rfl
